import Mathlib

unseal Rat.ofScientific Rat.add Rat.mul Rat.inv Rat.sub

/-!
Verification of the sensor simulator, status classifier and alert
dispatcher of the smart-water-quality-monitoring dashboard
(`src/app.js`).  Numeric values are modelled as rationals; the one
place where JavaScript number semantics matter (the division
`(value - min) / (max - min)` when `max == min`, which yields
`NaN`/`±Infinity` rather than throwing) is modelled explicitly by the
`JSNum` type below.
-/

namespace WaterMonitoring

/-- Result of a JavaScript division whose operands are finite:
either a finite number or one of the special values produced by
dividing by zero. -/
inductive JSNum where
  | fin (q : ℚ)
  | posInf
  | negInf
  | nan
  deriving DecidableEq, Repr

/-- JavaScript division `a / b` of two finite numbers:
`0/0 = NaN`, `a/0 = ±Infinity` for `a ≠ 0`, otherwise finite. -/
def jsDivQ (a b : ℚ) : JSNum :=
  if b = 0 then
    if a = 0 then JSNum.nan
    else if 0 < a then JSNum.posInf
    else JSNum.negInf
  else JSNum.fin (a / b)

/-- JavaScript comparison `x < c` for `x` a division result and `c` finite:
any comparison with `NaN` is false. -/
def jsLtC : JSNum → ℚ → Bool
  | JSNum.fin q, c => decide (q < c)
  | JSNum.posInf, _ => false
  | JSNum.negInf, _ => true
  | JSNum.nan, _ => false

/-- JavaScript comparison `x > c` for `x` a division result and `c` finite:
any comparison with `NaN` is false. -/
def jsGtC : JSNum → ℚ → Bool
  | JSNum.fin q, c => decide (c < q)
  | JSNum.posInf, _ => true
  | JSNum.negInf, _ => false
  | JSNum.nan, _ => false

/-- The CSS status class set by `updateSensorStatus`
(`"normal"`, `"warning"`, `"danger"`). -/
inductive Status where
  | normal
  | warning
  | danger
  deriving DecidableEq, Repr

/-- The status text set by `updateSensorStatus`
(`"Normal"`, `"Low"`, `"High"`, `"Warning"`, `"Alert"`). -/
inductive Tier where
  | Normal
  | Low
  | High
  | Warning
  | Alert
  deriving DecidableEq, Repr

/-- The notification type accepted by `showNotification`
(`"success" | "warning" | "danger" | "info"`). -/
inductive Severity where
  | success
  | warning
  | danger
  | info
  deriving DecidableEq, Repr

/-- One entry of `this.sensorData` (src/app.js lines 70-89). -/
structure SensorReading where
  value : ℚ
  min : ℚ
  max : ℚ
  unit : String
  precision : ℕ
  deriving DecidableEq, Repr

/-- The classification chain of `updateSensorStatus`
(src/app.js lines 157-173).  `percentage` is computed by a JavaScript
division, so when `max == min` it is `NaN` or `±Infinity` and the
band comparisons behave accordingly.  Returns the `(status, statusText)`
pair the function writes to the DOM. -/
def updateSensorStatus (value min max : ℚ) : Status × Tier :=
  let percentage := jsDivQ (value - min) (max - min)
  if value < min then (Status.danger, Tier.Low)
  else if max < value then (Status.danger, Tier.High)
  else if jsLtC percentage (2/10) || jsGtC percentage (8/10) then
    (Status.warning, Tier.Warning)
  else if jsLtC percentage (3/10) || jsGtC percentage (7/10) then
    (Status.warning, Tier.Alert)
  else (Status.normal, Tier.Normal)

/-- `updateSensorValue` (src/app.js lines 112-124): the perturbation is
`(Math.random() - 0.5) * 0.3` and the new value is
`Math.max(min*0.9, Math.min(max*1.1, value + variation))`.
`rand` is the value drawn from the random source. -/
def updateSensorValue (rand : ℚ) (r : SensorReading) : SensorReading :=
  let variation := (rand - 5/10) * (3/10)
  let newValue := r.value + variation
  let clamped := max (r.min * (9/10)) (min (r.max * (11/10)) newValue)
  { r with value := clamped }

/-- Repeated ticks of the simulator on one sensor, consuming one random
draw per tick (`updateAllSensors` calls `updateSensorValue` once per
sensor per tick). -/
def ticks (rands : List ℚ) (r : SensorReading) : SensorReading :=
  rands.foldl (fun s rand => updateSensorValue rand s) r

/-- `sensor.replace(/([A-Z])/g, " $1")`: insert a space before every
upper-case letter (used for the sensor name in alert messages). -/
def camelToSpaced (s : String) : String :=
  String.mk (s.data.foldr (fun c acc => if c.isUpper then ' ' :: c :: acc else c :: acc) [])

/-- Left-pad a digit string with zeros to length `d`. -/
def padZeros (s : String) (d : ℕ) : String :=
  String.mk (List.replicate (d - s.length) '0') ++ s

/-- Render the integer `n` (a value already scaled by `10^d`) as a
decimal numeral with `d` fractional digits. -/
def renderFixed (n : ℤ) (d : ℕ) : String :=
  let m := n.natAbs
  let sign := if n < 0 then "-" else ""
  if d = 0 then sign ++ toString m
  else sign ++ toString (m / 10 ^ d) ++ "." ++ padZeros (toString (m % 10 ^ d)) d

/-- JavaScript `value.toFixed(d)` for a finite decimal model:
round half away from zero to `d` fractional digits. -/
def toFixed (q : ℚ) (d : ℕ) : String :=
  renderFixed (if 0 ≤ q then (q * 10 ^ d + 5/10).floor else -((-q) * 10 ^ d + 5/10).floor) d

/-- Number of fractional decimal digits needed to write `q` exactly
(capped at 20; every bound in the repository is a finite decimal). -/
def fracDigits (q : ℚ) : ℕ :=
  (((List.range 21).filter (fun d => (q * 10 ^ d).den = 1)).headD 20)

/-- JavaScript default number-to-string for the finite decimals used as
sensor bounds: shortest exact decimal numeral, no decimal point for
integers (`6.5` → `"6.5"`, `500` → `"500"`). -/
def jsNumToString (q : ℚ) : String :=
  let d := fracDigits q
  renderFixed (q * 10 ^ d).num d

/-- The template-literal message built by `checkForAlerts`
(src/app.js lines 382-385):
`` `${sensorName}: ${value.toFixed(precision)}${unit} (Safe range: ${min}-${max}${unit})` ``
where `sensorName` is the key with a space inserted before capitals. -/
def buildAlertMessage (name : String) (r : SensorReading) : String :=
  camelToSpaced name ++ ": " ++ toFixed r.value r.precision ++ r.unit ++
    " (Safe range: " ++ jsNumToString r.min ++ "-" ++ jsNumToString r.max ++ r.unit ++ ")"

/-- The per-sensor body of `checkForAlerts` (src/app.js lines 374-394):
returns the notification (severity and message) dispatched for this
reading, if any. -/
def checkAlert (name : String) (r : SensorReading) : Option (Severity × String) :=
  if r.value < r.min * (105/100) ∨ r.max * (95/100) < r.value then
    let message := buildAlertMessage name r
    if r.value < r.min ∨ r.max < r.value then
      some (Severity.danger, "🚨 ALERT: " ++ message)
    else if r.value < r.min * (110/100) ∨ r.max * (90/100) < r.value then
      some (Severity.warning, "⚠️ Warning: " ++ message)
    else none
  else none

/-- `checkForAlerts` over the whole sensor map: the notifications
dispatched, in iteration order. -/
def checkForAlerts (sensors : List (String × SensorReading)) : List (Severity × String) :=
  sensors.filterMap (fun p => checkAlert p.1 p.2)

/-- `showNotification` (src/app.js lines 396-419) acting on the list of
currently visible notifications: `document.querySelector(".notification")`
returns the first one, which is removed, then the new notification is
appended to the document body. -/
def showNotification (msg : String) (ty : Severity)
    (visible : List (String × Severity)) : List (String × Severity) :=
  let afterRemove :=
    match visible with
    | [] => []
    | _ :: rest => rest
  afterRemove ++ [(msg, ty)]

/-- The timer-relevant state of the system: `this.updateInterval` plus
the set of interval timers currently scheduled by the environment
(`nextId` is the next timer id `setInterval` will hand out). -/
structure TimerState where
  updateInterval : Option ℕ
  active : List ℕ
  nextId : ℕ
  deriving DecidableEq, Repr

/-- `setInterval(...)`: schedule a new timer and return its id. -/
def setIntervalOp (st : TimerState) : ℕ × TimerState :=
  (st.nextId, { st with active := st.active ++ [st.nextId], nextId := st.nextId + 1 })

/-- `clearInterval(id)`: cancel the timer with this id (a no-op if it is
not scheduled). -/
def clearIntervalOp (id : ℕ) (st : TimerState) : TimerState :=
  { st with active := st.active.filter (fun t => t ≠ id) }

/-- `startAutoRefresh` (src/app.js lines 212-222): if `updateInterval`
is set, clear it first; then schedule a new interval and store its id. -/
def startAutoRefresh (st : TimerState) : TimerState :=
  let st1 :=
    match st.updateInterval with
    | some t => clearIntervalOp t st
    | none => st
  let idSt := setIntervalOp st1
  { idSt.2 with updateInterval := some idSt.1 }

/-- `stopAutoRefresh` (src/app.js lines 224-230): if `updateInterval` is
set, clear it and null it out; otherwise do nothing. -/
def stopAutoRefresh (st : TimerState) : TimerState :=
  match st.updateInterval with
  | some t => { clearIntervalOp t st with updateInterval := none }
  | none => st

/-- The initial sensor map of `initRealTimeUpdates`
(src/app.js lines 70-89). -/
def initialSensorData : List (String × SensorReading) :=
  [ ("ph", ⟨7.2, 6.5, 8.5, "", 1⟩),
    ("temperature", ⟨24.3, 20, 30, "°C", 1⟩),
    ("turbidity", ⟨4.2, 0, 10, " NTU", 1⟩),
    ("tds", ⟨180, 0, 500, " ppm", 0⟩),
    ("dissolvedOxygen", ⟨6.8, 0, 10, " mg/L", 1⟩),
    ("conductivity", ⟨250, 0, 1000, " µS/cm", 0⟩) ]

/-- The containment invariant of the data model: `value` lies within
`[min*0.9, max*1.1]`. -/
def inBounds (r : SensorReading) : Prop :=
  r.min * (9/10) ≤ r.value ∧ r.value ≤ r.max * (11/10)

instance (r : SensorReading) : Decidable (inBounds r) := by
  unfold inBounds; infer_instance

/-- The spec's classification algorithm (§4.2), written exactly as the
spec states it, for comparison with `updateSensorStatus`. -/
def specClassify (value min max : ℚ) : Status × Tier :=
  if value < min then (Status.danger, Tier.Low)
  else if max < value then (Status.danger, Tier.High)
  else
    let p := (value - min) / (max - min)
    if p < 2/10 ∨ 8/10 < p then (Status.warning, Tier.Warning)
    else if p < 3/10 ∨ 7/10 < p then (Status.warning, Tier.Alert)
    else (Status.normal, Tier.Normal)

/-- The spec's `clamp(x, lo, hi)` (§4.1), written as the spec states it. -/
def clampSpec (x lo hi : ℚ) : ℚ :=
  if x < lo then lo else if hi < x then hi else x

/-- Severity rank of a status class: `normal < warning < danger`. -/
def sevRank : Status → ℕ
  | Status.normal => 0
  | Status.warning => 1
  | Status.danger => 2

/-- Severity rank of the classifier written as a function of the band
position `p = (value - min)/(max - min)` (for `min < max`). -/
def rankFun (p : ℚ) : ℕ :=
  if p < 0 ∨ 1 < p then 2
  else if p < 3/10 ∨ 7/10 < p then 1
  else 0

/-- The timer invariant maintained by the auto-refresh operations: the
tracked interval handle is exactly the set of live timers, and every live
timer id was handed out before `nextId`. -/
def timerInv (st : TimerState) : Prop :=
  st.active = st.updateInterval.toList ∧ ∀ t ∈ st.active, t < st.nextId

instance (st : TimerState) : Decidable (timerInv st) := by
  unfold timerInv; infer_instance

-- Helper: branch characterization of the classifier when max > min.
theorem updateSensorStatus_of_lt (value mn mx : ℚ) (h : mn < mx) :
    updateSensorStatus value mn mx = specClassify value mn mx := by
  have hne : mx - mn ≠ 0 := sub_ne_zero.mpr (ne_of_gt (by linarith))
  unfold updateSensorStatus specClassify jsDivQ
  rw [if_neg hne]
  simp only [jsLtC, jsGtC, Bool.or_eq_true, decide_eq_true_eq]

theorem updateSensorStatus_degenerate (value m : ℚ) :
    updateSensorStatus value m m =
      if value < m then (Status.danger, Tier.Low)
      else if m < value then (Status.danger, Tier.High)
      else (Status.normal, Tier.Normal) := by
  unfold updateSensorStatus jsDivQ
  rw [sub_self, if_pos rfl]
  by_cases h1 : value < m
  · simp [h1]
  · by_cases h2 : m < value
    · simp [h1, h2]
    · have hv : value = m := le_antisymm (not_lt.mp h2) (not_lt.mp h1)
      subst hv
      simp [jsLtC, jsGtC, sub_self]

theorem updateSensorStatus_at_min (value mn mx : ℚ) (h : mn < mx) (hv : value = mn) :
    updateSensorStatus value mn mx = (Status.warning, Tier.Warning) := by
  subst hv
  have hne : mx - value ≠ 0 := sub_ne_zero.mpr (ne_of_gt (by linarith))
  unfold updateSensorStatus jsDivQ
  rw [if_neg hne]
  rw [sub_self, zero_div]
  simp only [jsLtC, jsGtC]
  rw [if_neg (lt_irrefl value), if_neg (not_lt.mpr (le_of_lt h))]
  norm_num

theorem rank_chain (p : ℚ) :
    sevRank (if p < 0 then (Status.danger, Tier.Low)
      else if 1 < p then (Status.danger, Tier.High)
      else if p < 2/10 ∨ 8/10 < p then (Status.warning, Tier.Warning)
      else if p < 3/10 ∨ 7/10 < p then (Status.warning, Tier.Alert)
      else (Status.normal, Tier.Normal)).1 = rankFun p := by
  unfold rankFun
  split_ifs <;> simp only [sevRank] <;> try rfl
  all_goals (exfalso; push_neg at *; try casesm* _ ∨ _)
  all_goals linarith

theorem sevRank_updateSensorStatus (value mn mx : ℚ) (h : mn < mx) :
    sevRank (updateSensorStatus value mn mx).1 = rankFun ((value - mn) / (mx - mn)) := by
  have hd : (0:ℚ) < mx - mn := by linarith
  have h1 : (value < mn) ↔ ((value - mn) / (mx - mn) < 0) := by
    rw [div_lt_iff₀ hd, zero_mul, sub_neg]
  have h2 : (mx < value) ↔ (1 < (value - mn) / (mx - mn)) := by
    rw [lt_div_iff₀ hd, one_mul, lt_sub_iff_add_lt]
    constructor <;> intro <;> linarith
  rw [updateSensorStatus_of_lt value mn mx h]
  simp only [specClassify, h1, h2]
  exact rank_chain _

theorem rankFun_low_side (p1 p2 : ℚ) (h12 : p1 ≤ p2) (h2 : p2 ≤ 1/2) :
    rankFun p2 ≤ rankFun p1 := by
  unfold rankFun
  split_ifs <;> try omega
  all_goals (exfalso; push_neg at *; try casesm* _ ∨ _)
  all_goals linarith

theorem rankFun_high_side (p1 p2 : ℚ) (h1 : 1/2 ≤ p1) (h12 : p1 ≤ p2) :
    rankFun p1 ≤ rankFun p2 := by
  unfold rankFun
  split_ifs <;> try omega
  all_goals (exfalso; push_neg at *; try casesm* _ ∨ _)
  all_goals linarith

theorem max_min_eq_clampSpec (x lo hi : ℚ) (h : lo ≤ hi) :
    max lo (min hi x) = clampSpec x lo hi := by
  simp only [clampSpec, min_def, max_def]
  split_ifs <;> linarith

theorem updateSensorValue_inBounds (r : SensorReading)
    (h : r.min * (9/10) ≤ r.max * (11/10)) (rand : ℚ) :
    inBounds (updateSensorValue rand r) :=
  ⟨le_max_left _ _, max_le h (min_le_left _ _)⟩

theorem ticks_inBounds (l : List ℚ) (r : SensorReading)
    (h : r.min * (9/10) ≤ r.max * (11/10)) (hin : inBounds r) :
    inBounds (ticks l r) := by
  induction l generalizing r with
  | nil => exact hin
  | cons a t ih =>
      show inBounds (ticks t (updateSensorValue a r))
      exact ih (updateSensorValue a r) h (updateSensorValue_inBounds r h a)

/-- C1: for every reading with `max > min`, the classifier computes the
`(status, tier)` pair by the spec's first-match precedence: `value < min` →
Low (danger); `value > max` → High (danger); `p < 0.2 ∨ p > 0.8` → Warning;
`p < 0.3 ∨ p > 0.7` → Alert; otherwise Normal, where
`p = (value - min)/(max - min)`. -/
theorem claim_C1_classifier_precedence (value mn mx : ℚ) (h : mn < mx) :
    updateSensorStatus value mn mx = specClassify value mn mx :=
  updateSensorStatus_of_lt value mn mx h

theorem claim_C1_witness :
    (6.5 : ℚ) < 8.5 ∧ updateSensorStatus 7.2 6.5 8.5 = specClassify 7.2 6.5 8.5 :=
  ⟨by decide, claim_C1_classifier_precedence 7.2 6.5 8.5 (by decide)⟩

/-- C2: for a reading with well-formed bounds (`0 ≤ min ≤ max`, true of every
sensor the simulator owns), a single update and every nonempty sequence of
ticks leave `value` within `[min*0.9, max*1.1]`; and every sensor in the
initial data has `0 ≤ min ≤ max`. -/
theorem claim_C2_bound_containment (r : SensorReading)
    (h0 : 0 ≤ r.min) (h1 : r.min ≤ r.max) :
    (∀ rand, inBounds (updateSensorValue rand r)) ∧
    (∀ rands : List ℚ, rands ≠ [] → inBounds (ticks rands r)) ∧
    (∀ p ∈ initialSensorData, 0 ≤ p.2.min ∧ p.2.min ≤ p.2.max) := by
  have h : r.min * (9/10) ≤ r.max * (11/10) := by linarith
  refine ⟨fun rand => updateSensorValue_inBounds r h rand, ?_, by decide⟩
  intro rands hne
  cases rands with
  | nil => exact absurd rfl hne
  | cons a t =>
      show inBounds (ticks t (updateSensorValue a r))
      exact ticks_inBounds t (updateSensorValue a r) h (updateSensorValue_inBounds r h a)

theorem claim_C2_witness :
    (0 : ℚ) ≤ 6.5 ∧ (6.5 : ℚ) ≤ 8.5 ∧
    ([(1:ℚ)/2] ≠ ([] : List ℚ)) ∧
    inBounds (ticks [(1:ℚ)/2] ⟨7.2, 6.5, 8.5, "", 1⟩) :=
  ⟨by decide, by decide, by decide,
   (claim_C2_bound_containment ⟨7.2, 6.5, 8.5, "", 1⟩ (by decide) (by decide)).2.1
     [(1:ℚ)/2] (by decide)⟩

/-- C3: for a reading that passes the dispatcher's guard
(`value < min*1.05 ∨ value > max*0.95`), a danger notification is dispatched
exactly when `value < min ∨ value > max` (with the message built from the
sensor name, the value at the configured precision with unit, and the safe
range); otherwise a warning notification is dispatched exactly when
`value < min*1.1 ∨ value > max*0.9`.  The reading
`{value: 6.3, min: 6.5, max: 8.5}` dispatches a danger notification whose
message contains the sensor name `ph` and `6.3`. -/
theorem claim_C3_alert_dispatch (name : String) (r : SensorReading)
    (hguard : r.value < r.min * (105/100) ∨ r.max * (95/100) < r.value) :
    ((∃ msg, checkAlert name r = some (Severity.danger, msg)) ↔
      (r.value < r.min ∨ r.max < r.value)) ∧
    ((r.value < r.min ∨ r.max < r.value) →
      checkAlert name r = some (Severity.danger, "🚨 ALERT: " ++ buildAlertMessage name r)) ∧
    (¬(r.value < r.min ∨ r.max < r.value) →
      ((∃ msg, checkAlert name r = some (Severity.warning, msg)) ↔
        (r.value < r.min * (110/100) ∨ r.max * (90/100) < r.value))) ∧
    checkAlert "ph" ⟨6.3, 6.5, 8.5, "", 1⟩ =
      some (Severity.danger, "🚨 ALERT: ph: 6.3 (Safe range: 6.5-8.5)") := by
  refine ⟨?_, ?_, ?_, by decide⟩ <;> unfold checkAlert <;> rw [if_pos hguard]
  · by_cases hb : r.value < r.min ∨ r.max < r.value
    · rw [if_pos hb]
      exact ⟨fun _ => hb, fun _ => ⟨_, rfl⟩⟩
    · rw [if_neg hb]
      constructor
      · rintro ⟨msg, hmsg⟩
        split at hmsg
        · exact absurd hmsg (by simp)
        · cases hmsg
      · intro hcontra
        exact absurd hcontra hb
  · intro hb
    rw [if_pos hb]
  · intro hb
    rw [if_neg hb]
    by_cases hw : r.value < r.min * (110/100) ∨ r.max * (90/100) < r.value
    · rw [if_pos hw]
      exact ⟨fun _ => hw, fun _ => ⟨_, rfl⟩⟩
    · rw [if_neg hw]
      constructor
      · rintro ⟨msg, hmsg⟩
        cases hmsg
      · intro hcontra
        exact absurd hcontra hw

theorem claim_C3_witness :
    ((6.3 : ℚ) < 6.5 * (105/100) ∨ (8.5 : ℚ) * (95/100) < 6.3) ∧
    checkAlert "ph" ⟨6.3, 6.5, 8.5, "", 1⟩ =
      some (Severity.danger, "🚨 ALERT: " ++ buildAlertMessage "ph" ⟨6.3, 6.5, 8.5, "", 1⟩) :=
  ⟨by decide,
   (claim_C3_alert_dispatch "ph" ⟨6.3, 6.5, 8.5, "", 1⟩ (by decide)).2.1 (by decide)⟩

/-- C4 counterexample: for the reading `{value: 6.5, min: 6.5, max: 8.5}` the
classifier returns tier Warning (the position is `p = 0 < 0.2`), not Normal
as the claim states. -/
theorem claim_C4_counterexample :
    updateSensorStatus 6.5 6.5 8.5 = (Status.warning, Tier.Warning) ∧
    (updateSensorStatus 6.5 6.5 8.5).2 ≠ Tier.Normal := by decide

/-- C4 (amended): for the reading `{value: 6.5, min: 6.5, max: 8.5}` (and
generally for any reading with `value = min` and `max > min`), the classifier
returns tier Warning — not Low, because the Low check uses the strict
inequality `value < min`. -/
theorem claim_C4_value_at_min (value mn mx : ℚ) (h : mn < mx) (hv : value = mn) :
    updateSensorStatus value mn mx = (Status.warning, Tier.Warning) ∧
    (updateSensorStatus value mn mx).2 ≠ Tier.Low := by
  rw [updateSensorStatus_at_min value mn mx h hv]
  exact ⟨rfl, by decide⟩

theorem claim_C4_witness :
    (6.5 : ℚ) < 8.5 ∧
    (updateSensorStatus 6.5 6.5 8.5 = (Status.warning, Tier.Warning) ∧
      (updateSensorStatus 6.5 6.5 8.5).2 ≠ Tier.Low) :=
  ⟨by decide, claim_C4_value_at_min 6.5 6.5 8.5 (by decide) rfl⟩

/-- C5: for every reading with `max = min` the classifier is total (it never
throws: the JavaScript division yields `NaN`, against which every band
comparison is false) and resolves to Low if `value < min`, High if
`value > max`, and Normal when `value = min = max`. -/
theorem claim_C5_degenerate_bounds (value m : ℚ) :
    updateSensorStatus value m m =
      if value < m then (Status.danger, Tier.Low)
      else if m < value then (Status.danger, Tier.High)
      else (Status.normal, Tier.Normal) :=
  updateSensorStatus_degenerate value m

/-- C6 counterexample: with `min = 6.5`, `max = 8.5`, decreasing the value
from `max = 8.5` to `7.5` takes the tier from Warning to Normal, a strict
decrease in severity, so the tier sequence starting from `max` is not
non-decreasing in severity. -/
theorem claim_C6_counterexample :
    (updateSensorStatus 8.5 6.5 8.5).2 = Tier.Warning ∧
    (updateSensorStatus 7.5 6.5 8.5).2 = Tier.Normal ∧
    sevRank (updateSensorStatus 7.5 6.5 8.5).1 < sevRank (updateSensorStatus 8.5 6.5 8.5).1 := by
  decide

/-- C6 (amended): for fixed `min < max`, as the value decreases from the
center of the safe band `(min+max)/2` toward `min` and below, the severity
rank (Normal < Warning/Alert < Low) is non-decreasing; symmetrically as the
value increases from the center toward `max` and beyond. -/
theorem claim_C6_monotone_from_center (mn mx v1 v2 : ℚ) (h : mn < mx) :
    (v1 ≤ v2 → v2 ≤ (mn + mx)/2 →
      sevRank (updateSensorStatus v2 mn mx).1 ≤ sevRank (updateSensorStatus v1 mn mx).1) ∧
    ((mn + mx)/2 ≤ v1 → v1 ≤ v2 →
      sevRank (updateSensorStatus v1 mn mx).1 ≤ sevRank (updateSensorStatus v2 mn mx).1) := by
  have hd : (0:ℚ) < mx - mn := by linarith
  constructor
  · intro h12 hmid
    rw [sevRank_updateSensorStatus v1 mn mx h, sevRank_updateSensorStatus v2 mn mx h]
    apply rankFun_low_side
    · exact div_le_div_of_nonneg_right (by linarith) hd.le
    · rw [div_le_iff₀ hd]
      linarith
  · intro hmid h12
    rw [sevRank_updateSensorStatus v1 mn mx h, sevRank_updateSensorStatus v2 mn mx h]
    apply rankFun_high_side
    · rw [le_div_iff₀ hd]
      linarith
    · exact div_le_div_of_nonneg_right (by linarith) hd.le

theorem claim_C6_witness :
    (6.5 : ℚ) < 8.5 ∧
    (((7.0 : ℚ) ≤ 7.4 → (7.4 : ℚ) ≤ (6.5 + 8.5)/2 →
        sevRank (updateSensorStatus 7.4 6.5 8.5).1 ≤ sevRank (updateSensorStatus 7.0 6.5 8.5).1) ∧
      ((6.5 + 8.5)/2 ≤ (7.6 : ℚ) → (7.6 : ℚ) ≤ 8.0 →
        sevRank (updateSensorStatus 7.6 6.5 8.5).1 ≤ sevRank (updateSensorStatus 8.0 6.5 8.5).1)) := by
  refine ⟨by decide, ?_, ?_⟩
  · exact (claim_C6_monotone_from_center 6.5 8.5 7.0 7.4 (by decide)).1
  · exact (claim_C6_monotone_from_center 6.5 8.5 7.6 8.0 (by decide)).2

/-- C7: the single-sensor update is the deterministic function
`value' = clamp(value + δ, min*0.9, max*1.1)` of the random draw, where
`δ = (rand - 0.5)*0.3`; a stubbed draw giving `δ = +0.1` applied to
`{value: 7.2, min: 6.5, max: 8.5}` yields `7.3`, and a stubbed draw giving
`δ = +100` clamps to `8.5*1.1 = 9.35`. -/
theorem claim_C7_update_is_clamp (r : SensorReading)
    (h : r.min * (9/10) ≤ r.max * (11/10)) :
    (∀ rand, (updateSensorValue rand r).value =
      clampSpec (r.value + (rand - 5/10) * (3/10)) (r.min * (9/10)) (r.max * (11/10))) ∧
    ((5/6 : ℚ) - 5/10) * (3/10) = 1/10 ∧
    (updateSensorValue (5/6) ⟨7.2, 6.5, 8.5, "", 1⟩).value = 7.3 ∧
    ((2003/6 : ℚ) - 5/10) * (3/10) = 100 ∧
    (updateSensorValue (2003/6) ⟨7.2, 6.5, 8.5, "", 1⟩).value = 9.35 ∧
    (9.35 : ℚ) = 8.5 * (11/10) := by
  refine ⟨fun rand => ?_, by decide, by decide, by decide, by decide, by decide⟩
  show max (r.min * (9/10)) (min (r.max * (11/10)) (r.value + (rand - 5/10) * (3/10))) = _
  exact max_min_eq_clampSpec _ _ _ h

theorem claim_C7_witness :
    ((6.5 : ℚ) * (9/10) ≤ 8.5 * (11/10)) ∧
    (updateSensorValue (5/6) ⟨7.2, 6.5, 8.5, "", 1⟩).value =
      clampSpec ((7.2 : ℚ) + ((5/6 : ℚ) - 5/10) * (3/10)) (6.5 * (9/10)) (8.5 * (11/10)) :=
  ⟨by decide, (claim_C7_update_is_clamp ⟨7.2, 6.5, 8.5, "", 1⟩ (by decide)).1 (5/6)⟩

/-- C8: from any state with at most one visible notification, dispatching a
notification leaves exactly the new one visible, and dispatching two in
immediate succession leaves exactly one visible — the second (last-wins). -/
theorem claim_C8_single_notification (m1 m2 : String) (t1 t2 : Severity)
    (visible : List (String × Severity)) (h : visible.length ≤ 1) :
    showNotification m2 t2 visible = [(m2, t2)] ∧
    showNotification m2 t2 (showNotification m1 t1 visible) = [(m2, t2)] := by
  rcases visible with _ | ⟨a, _ | ⟨b, t⟩⟩
  · exact ⟨rfl, rfl⟩
  · exact ⟨rfl, rfl⟩
  · simp only [List.length_cons] at h
    omega

theorem claim_C8_witness :
    ([] : List (String × Severity)).length ≤ 1 ∧
    (showNotification "second" Severity.danger [] = [("second", Severity.danger)] ∧
      showNotification "second" Severity.danger
          (showNotification "first" Severity.warning []) = [("second", Severity.danger)]) :=
  ⟨by decide,
   claim_C8_single_notification "first" "second" Severity.warning Severity.danger [] (by decide)⟩

/-- C9: under the timer invariant (the tracked interval id is exactly the set
of live timers), starting auto-refresh cancels any existing timer before
creating the new one (exactly one timer is live afterwards, the fresh one),
stopping leaves no live timer and a null handle, and a second stop in a row
is a no-op (and in particular produces no error: the operation is total). -/
theorem claim_C9_timer_invariants (st : TimerState) (h : timerInv st) :
    timerInv (startAutoRefresh st) ∧
    (startAutoRefresh st).active = [st.nextId] ∧
    timerInv (stopAutoRefresh st) ∧
    (stopAutoRefresh st).active = [] ∧
    (stopAutoRefresh st).updateInterval = none ∧
    stopAutoRefresh (stopAutoRefresh st) = stopAutoRefresh st := by
  obtain ⟨hact, hbound⟩ := h
  cases hU : st.updateInterval with
  | none =>
      have hempty : st.active = [] := by rw [hact, hU]; rfl
      have hstop : stopAutoRefresh st = st := by
        unfold stopAutoRefresh
        rw [hU]
      refine ⟨⟨?_, ?_⟩, ?_, ?_, ?_, ?_, ?_⟩
      · simp [startAutoRefresh, setIntervalOp, hU, hempty]
      · simp [startAutoRefresh, setIntervalOp, hU, hempty, timerInv]
      · simp [startAutoRefresh, setIntervalOp, hU, hempty]
      · rw [hstop]; exact ⟨hact, hbound⟩
      · rw [hstop, hempty]
      · rw [hstop, hU]
      · rw [hstop, hstop]
  | some t =>
      have hsingle : st.active = [t] := by rw [hact, hU]; rfl
      have hclear : (clearIntervalOp t st).active = [] := by
        simp [clearIntervalOp, hsingle]
      have hstop : stopAutoRefresh st = { clearIntervalOp t st with updateInterval := none } := by
        unfold stopAutoRefresh
        rw [hU]
      refine ⟨⟨?_, ?_⟩, ?_, ⟨?_, ?_⟩, ?_, ?_, ?_⟩
      · simp [startAutoRefresh, setIntervalOp, clearIntervalOp, hU, hsingle]
      · simp [startAutoRefresh, setIntervalOp, clearIntervalOp, hU, hsingle]
      · simp [startAutoRefresh, setIntervalOp, clearIntervalOp, hU, hsingle]
      · rw [hstop]
        show (clearIntervalOp t st).active = ([] : List ℕ)
        exact hclear
      · rw [hstop]
        intro x hx
        rw [show ({ clearIntervalOp t st with updateInterval := none } : TimerState).active
              = (clearIntervalOp t st).active from rfl, hclear] at hx
        cases hx
      · rw [hstop]
        exact hclear
      · rw [hstop]
      · rw [hstop]
        show stopAutoRefresh { clearIntervalOp t st with updateInterval := none } = _
        unfold stopAutoRefresh
        rfl

theorem claim_C9_witness :
    timerInv ⟨some 0, [0], 1⟩ ∧
    (timerInv (startAutoRefresh ⟨some 0, [0], 1⟩) ∧
      (startAutoRefresh ⟨some 0, [0], 1⟩).active = [(⟨some 0, [0], 1⟩ : TimerState).nextId] ∧
      timerInv (stopAutoRefresh ⟨some 0, [0], 1⟩) ∧
      (stopAutoRefresh ⟨some 0, [0], 1⟩).active = [] ∧
      (stopAutoRefresh ⟨some 0, [0], 1⟩).updateInterval = none ∧
      stopAutoRefresh (stopAutoRefresh ⟨some 0, [0], 1⟩) = stopAutoRefresh ⟨some 0, [0], 1⟩) :=
  ⟨by decide, claim_C9_timer_invariants ⟨some 0, [0], 1⟩ (by decide)⟩

/-- C10: for a sensor whose `min` bound is 0 (turbidity, TDS, dissolved
oxygen and conductivity in the initial data) and any value satisfying the
containment invariant (`value ≥ min*0.9 = 0`), every low-side condition of
the alert dispatcher is unreachable, and any dispatched notification is
caused by the high-side condition `value > max*0.95`. -/
theorem claim_C10_zero_min_no_low_alerts (name : String) (r : SensorReading)
    (hmin : r.min = 0) (hval : 0 ≤ r.value) :
    (¬ r.value < r.min * (105/100)) ∧
    (¬ r.value < r.min) ∧
    (¬ r.value < r.min * (110/100)) ∧
    (∀ n, checkAlert name r = some n → r.max * (95/100) < r.value) ∧
    ((initialSensorData.lookup "turbidity").map SensorReading.min = some 0 ∧
      (initialSensorData.lookup "tds").map SensorReading.min = some 0 ∧
      (initialSensorData.lookup "dissolvedOxygen").map SensorReading.min = some 0 ∧
      (initialSensorData.lookup "conductivity").map SensorReading.min = some 0) := by
  have h105 : ¬ r.value < r.min * (105/100) := by
    rw [hmin, zero_mul]
    exact not_lt.mpr hval
  have h100 : ¬ r.value < r.min := by
    rw [hmin]
    exact not_lt.mpr hval
  have h110 : ¬ r.value < r.min * (110/100) := by
    rw [hmin, zero_mul]
    exact not_lt.mpr hval
  refine ⟨h105, h100, h110, ?_, by decide⟩
  intro n hn
  unfold checkAlert at hn
  by_cases hg : r.value < r.min * (105/100) ∨ r.max * (95/100) < r.value
  · rcases hg with hl | hr
    · exact absurd hl h105
    · exact hr
  · rw [if_neg hg] at hn
    cases hn

theorem claim_C10_witness :
    ((⟨4.2, 0, 10, " NTU", 1⟩ : SensorReading).min = 0) ∧
    ((0 : ℚ) ≤ (⟨4.2, 0, 10, " NTU", 1⟩ : SensorReading).value) ∧
    (∀ n, checkAlert "turbidity" ⟨4.2, 0, 10, " NTU", 1⟩ = some n →
      (⟨4.2, 0, 10, " NTU", 1⟩ : SensorReading).max * (95/100) <
        (⟨4.2, 0, 10, " NTU", 1⟩ : SensorReading).value) :=
  ⟨rfl, by decide,
   (claim_C10_zero_min_no_low_alerts "turbidity" ⟨4.2, 0, 10, " NTU", 1⟩ rfl (by decide)).2.2.2.1⟩

end WaterMonitoring
